import Mathlib

/-!
Verification of the log collector (syslogger) subsystem of
`src/backend/postmaster/syslogger.c`, as a shallow embedding in Lean 4.

The embedding follows the non-Windows code path of the source: the collector
state held in the module-level variables is collected into `SysState`, and the
interaction with the operating system (clock, `fopen`, `select`, `piperead`,
`fwrite`, signal delivery, configuration file contents) is supplied by
explicit environment records, so that one main-loop iteration becomes a pure
function `sysLoggerIter` on states.
-/

/-- The errno values the syslogger code distinguishes.  All other errno
values behave alike and are collapsed into `other`. -/
inductive Errno where
  | ENFILE
  | EMFILE
  | EINTR
  | other (n : Nat)
deriving DecidableEq

/-- Diagnostics the collector reports through its own write path
(`ereport(LOG, ...)` calls in `syslogger.c`). -/
inductive Diag where
  | selectFailed
  | readFailed
  | writeFailed
  | openFailed (filename : String)
  | rotationDisabled
  | shuttingDown
deriving DecidableEq

/-- The currently open output file: its path and its byte contents.  A file
opened with `fopen(..., "a")` is positioned at its end, so `ftell` is the
length of `contents`. -/
structure FileH where
  name : String
  contents : List UInt8
deriving DecidableEq

/-- The call `ftell(syslogFile)`: current position of an append-mode stream. -/
def ftell (f : FileH) : Int := (f.contents.length : Int)

/-- The constant `MAXPGPATH`, the bound used by `strncpy`/`strncmp` on directory paths. -/
def MAXPGPATH : Nat := 1024

/-- The collector state: the module-level variables of `syslogger.c` that the
main loop reads and writes, plus `currentLogDir`, the local snapshot kept by
`SysLoggerMain`.  `Log_filename_pfx` embeds the source variable holding the
logfile name prefix (GUC default `"postgresql-"`). -/
structure SysState where
  Log_RotationAge : Int
  Log_RotationSize : Int
  Log_directory : String
  Log_filename_pfx : String
  last_rotation_time : Int
  currentLogDir : String
  pipe_eof_seen : Bool
  got_SIGHUP : Bool
  syslogFile : FileH
deriving DecidableEq

/-- Broken-down local time as produced by `pg_localtime`, already normalised
to calendar values (year as e.g. 2004, month 1..12). -/
structure PgTm where
  year : Nat
  mon : Nat
  mday : Nat
  hour : Nat
  minute : Nat
  sec : Nat
deriving DecidableEq

/-- Ambient process-wide constants read by `logfile_getname`: the local-time
conversion (`pg_localtime`), `DataDir`, and `PostmasterPid`. -/
structure World where
  localtime : Int → PgTm
  DataDir : String
  PostmasterPid : Nat

/-- Render `n` in decimal, zero-padded on the left to at least `width`
digits; this is `snprintf`'s `%0<width>u` (and the zero-padded fields of
`strftime`). -/
def padZero (width n : Nat) : String :=
  let s := Nat.repr n
  String.mk (List.replicate (width - s.length) '0') ++ s

/-- Modelled from the spec: `pg_strftime` with the format string
`"%Y-%m-%d_%H%M%S"` applied to a broken-down local time (`pg_strftime` and
`pg_localtime` live in `src/timezone`, outside the provided sources; the spec
fixes the format as `%Y-%m-%d_%H%M%S` in local time). -/
def strftimeStamp (tm : PgTm) : String :=
  padZero 4 tm.year ++ "-" ++ padZero 2 tm.mon ++ "-" ++ padZero 2 tm.mday
    ++ "_" ++ padZero 2 tm.hour ++ padZero 2 tm.minute ++ padZero 2 tm.sec

/-- Modelled from the source macro `is_absolute_path` (`src/include/port.h`,
outside the provided sources): on POSIX platforms a path is absolute iff its
first character is a slash. -/
def is_absolute_path (p : String) : Bool :=
  match p.data with
  | [] => false
  | c :: _ => c = '/'

/-- A call `snprintf(buf, MAXPGPATH, ...)` keeps at most `MAXPGPATH - 1` characters
of the formatted result. -/
def snprintfPath (s : String) : String :=
  String.mk (s.data.take (MAXPGPATH - 1))

/-- The function `logfile_getname(timestamp)`: construct the logfile name from the
configured directory and prefix, `PostmasterPid` rendered with `%05u`, and
the local-time stamp of `timestamp`. -/
def logfile_getname (w : World) (logDir pfx : String) (timestamp : Int) : String :=
  let stamptext := strftimeStamp (w.localtime timestamp)
  if is_absolute_path logDir then
    snprintfPath (logDir ++ "/" ++ pfx ++ padZero 5 w.PostmasterPid
      ++ "_" ++ stamptext ++ ".log")
  else
    snprintfPath (w.DataDir ++ "/" ++ logDir ++ "/" ++ pfx
      ++ padZero 5 w.PostmasterPid ++ "_" ++ stamptext ++ ".log")

/-- Environment of one `logfile_rotate` call: the `time(NULL)` sample taken
at its start, and the outcome of `fopen(filename, "a")` — `some contents`
for success (the bytes already in the opened file), `none` for failure with
`errno = openErrno`. -/
structure RotateEnv where
  now : Int
  openResult : Option (List UInt8)
  openErrno : Errno

/-- The procedure `logfile_rotate()`: compute the next name, try to open it for append; on
success swap the file and update `last_rotation_time`; on failure report it,
and unless the errno is `ENFILE`/`EMFILE` also zero both rotation GUCs and
report that automatic rotation is disabled. -/
def logfile_rotate (w : World) (renv : RotateEnv) (s : SysState) :
    SysState × List Diag :=
  let filename := logfile_getname w s.Log_directory s.Log_filename_pfx renv.now
  match renv.openResult with
  | none =>
      if renv.openErrno ≠ Errno.ENFILE ∧ renv.openErrno ≠ Errno.EMFILE then
        ({ s with Log_RotationAge := 0, Log_RotationSize := 0 },
          [Diag.openFailed filename, Diag.rotationDisabled])
      else
        (s, [Diag.openFailed filename])
  | some contents =>
      ({ s with syslogFile := ⟨filename, contents⟩,
                last_rotation_time := renv.now }, [])

/-- The procedure `write_syslogger_file(buffer, count)`: one `fwrite` of `count` bytes; the
environment chooses how many bytes the `fwrite` actually transfers (`rc`,
clamped to at most `count` as `fwrite` cannot report more than requested).
If `rc != count`, report a write failure; never retry, never keep the
unwritten tail, never exit. -/
def write_syslogger_file (buffer : List UInt8) (count : Nat) (fwriteRc : Nat)
    (s : SysState) : SysState × List Diag :=
  let rc := min fwriteRc count
  let s1 := { s with syslogFile :=
    { s.syslogFile with contents := s.syslogFile.contents ++ buffer.take rc } }
  if rc ≠ count then (s1, [Diag.writeFailed]) else (s1, [])

/-- The handler `sigHupHandler`: the SIGHUP handler sets `got_SIGHUP` and does nothing
else. -/
def sigHupHandler (s : SysState) : SysState :=
  { s with got_SIGHUP := true }

/-- The four reloadable GUC values that `ProcessConfigFile(PGC_SIGHUP)`
installs on a reload. -/
structure GucConfig where
  Log_RotationAge : Int
  Log_RotationSize : Int
  Log_directory : String
  Log_filename_pfx : String
deriving DecidableEq

/-- The test `strncmp(a, b, n) != 0` on NUL-terminated strings of which at most the
first `n` characters are compared. -/
def strncmpNe (a b : String) (n : Nat) : Bool :=
  decide (a.data.take n ≠ b.data.take n)

/-- The call `strncpy(dst, src, n)` as the value left in `dst`, viewed as a bounded
snapshot of `src`. -/
def strncpyTake (src : String) (n : Nat) : String :=
  String.mk (src.data.take n)

/-- The reload block at the top of the main loop: if `got_SIGHUP`, clear it,
install the reread configuration, and if the (new) `Log_directory` differs
from the `currentLogDir` snapshot (compared with `strncmp` bounded by
`MAXPGPATH`), re-snapshot it and request a rotation.  Returns the updated
state and `rotation_requested`. -/
def processReload (cfg : GucConfig) (s : SysState) : SysState × Bool :=
  if s.got_SIGHUP then
    let s1 := { s with got_SIGHUP := false,
                       Log_RotationAge := cfg.Log_RotationAge,
                       Log_RotationSize := cfg.Log_RotationSize,
                       Log_directory := cfg.Log_directory,
                       Log_filename_pfx := cfg.Log_filename_pfx }
    if strncmpNe s1.Log_directory s1.currentLogDir MAXPGPATH then
      ({ s1 with currentLogDir := strncpyTake s1.Log_directory MAXPGPATH }, true)
    else
      (s1, false)
  else
    (s, false)

/-- The rotation decision at the top of one main-loop iteration: the reload
block, then the age check (guarded by `!rotation_requested`,
`last_rotation_time != 0` and `Log_RotationAge > 0`), then the size check
(guarded by `!rotation_requested` and `Log_RotationSize > 0`).  `now` is the
`time(NULL)` sample of the age check. -/
def checkRotation (cfg : GucConfig) (now : Int) (s : SysState) :
    SysState × Bool :=
  let p := processReload cfg s
  let s1 := p.1
  let req1 :=
    if p.2 = false ∧ s1.last_rotation_time ≠ 0 ∧ s1.Log_RotationAge > 0
        ∧ now - s1.last_rotation_time ≥ s1.Log_RotationAge * 60 then
      true
    else p.2
  let req2 :=
    if req1 = false ∧ s1.Log_RotationSize > 0
        ∧ ftell s1.syslogFile ≥ s1.Log_RotationSize * 1024 then
      true
    else req1
  (s1, req2)

/-- The statement `if (rotation_requested) logfile_rotate();` — the action taken once the
decision is made; it depends only on the Boolean, not on which condition
produced it. -/
def rotateIfRequested (w : World) (renv : RotateEnv) (p : SysState × Bool) :
    SysState × List Diag :=
  if p.2 then logfile_rotate w renv p.1 else (p.1, [])

/-- Outcome of `select(2)` on the pipe with a one-second timeout. -/
inductive SelectRes where
  | err (e : Errno)
  | timeout
  | readable
deriving DecidableEq

/-- Outcome of `piperead` once `select` reported readability: an error with
an errno, or the bytes transferred (the empty list is a zero-length read,
i.e. pipe EOF). -/
inductive ReadRes where
  | err (e : Errno)
  | data (bytes : List UInt8)
deriving DecidableEq

/-- Environment of one main-loop iteration. -/
structure IterEnv where
  /-- whether a SIGHUP is delivered just before this iteration runs -/
  sigHupArrives : Bool
  /-- the configuration `ProcessConfigFile` would install -/
  newConfig : GucConfig
  /-- the `time(NULL)` sample for the age check -/
  now : Int
  /-- environment of a `logfile_rotate` call, if one happens -/
  rotateEnv : RotateEnv
  /-- outcome of the `select` wait -/
  selectRes : SelectRes
  /-- outcome of the `piperead`, if `select` reported readability -/
  readRes : ReadRes
  /-- bytes the `fwrite` inside `write_syslogger_file` transfers -/
  fwriteRc : Nat

/-- The wait-and-read section of one iteration (lines 280–326 of the
source): returns the updated state, the diagnostics reported, and whether
the `continue` after a successful data write was taken (which skips the
EOF check at the bottom of the loop).  `select` errors other than `EINTR`
and read errors other than `EINTR` are reported; `EINTR` and timeouts do
nothing; a positive read is written to the file; a zero-length read sets
`pipe_eof_seen`.  Reads are bounded by `sizeof(logbuffer) = 1024`. -/
def drainOnce (env : IterEnv) (s : SysState) :
    SysState × List Diag × Bool :=
  match env.selectRes with
  | SelectRes.err e =>
      (s, if e = Errno.EINTR then [] else [Diag.selectFailed], false)
  | SelectRes.timeout => (s, [], false)
  | SelectRes.readable =>
      match env.readRes with
      | ReadRes.err e =>
          (s, if e = Errno.EINTR then [] else [Diag.readFailed], false)
      | ReadRes.data bytes =>
          let bs := bytes.take 1024
          if bs.length > 0 then
            let r := write_syslogger_file bs bs.length env.fwriteRc s
            (r.1, r.2, true)
          else
            ({ s with pipe_eof_seen := true }, [], false)

/-- Result of one main-loop iteration: continue with a new state, or
`proc_exit` with a code. -/
inductive IterOut where
  | next (s : SysState)
  | exit (code : Nat)
deriving DecidableEq

/-- One iteration of the main worker loop of `SysLoggerMain` (non-Windows
path): possible SIGHUP delivery, the reload block, the age and size checks,
the rotation if requested, one bounded wait-and-read, and the EOF check that
exits with code 0 after the "logger shutting down" diagnostic. -/
def sysLoggerIter (w : World) (env : IterEnv) (s0 : SysState) :
    IterOut × List Diag :=
  let sa := if env.sigHupArrives then sigHupHandler s0 else s0
  let p := checkRotation env.newConfig env.now sa
  let r := rotateIfRequested w env.rotateEnv p
  let d := drainOnce env r.1
  if d.2.2 then
    (IterOut.next d.1, r.2 ++ d.2.1)
  else if d.1.pipe_eof_seen then
    (IterOut.exit 0, r.2 ++ d.2.1 ++ [Diag.shuttingDown])
  else
    (IterOut.next d.1, r.2 ++ d.2.1)

/-- Run the main loop over a list of per-iteration environments. -/
def sysLoggerRun (w : World) : List IterEnv → SysState → IterOut
  | [], s => IterOut.next s
  | e :: es, s =>
      match (sysLoggerIter w e s).1 with
      | IterOut.next s1 => sysLoggerRun w es s1
      | IterOut.exit c => IterOut.exit c

/-! Sample concrete values used by the witness theorems. -/

def tm0 : PgTm := ⟨2004, 10, 7, 12, 34, 56⟩

def w0 : World := ⟨fun _ => tm0, "/data", 42⟩

def file0 : FileH := ⟨"/data/pg_log/postgresql-00042_2004-10-07_123456.log", [65, 66]⟩

def s0 : SysState :=
  { Log_RotationAge := 1440, Log_RotationSize := 10240,
    Log_directory := "pg_log", Log_filename_pfx := "postgresql-",
    last_rotation_time := 100, currentLogDir := "pg_log",
    pipe_eof_seen := false, got_SIGHUP := false, syslogFile := file0 }

def cfg0 : GucConfig := ⟨1440, 10240, "pg_log", "postgresql-"⟩

def renvOk : RotateEnv := ⟨200, some [], Errno.other 0⟩

def renvEacces : RotateEnv := ⟨200, none, Errno.other 13⟩

def renvEnfile : RotateEnv := ⟨200, none, Errno.ENFILE⟩

def env0 : IterEnv :=
  { sigHupArrives := false, newConfig := cfg0, now := 150,
    rotateEnv := renvOk, selectRes := SelectRes.timeout,
    readRes := ReadRes.data [], fwriteRc := 0 }

example : ftell file0 = 2 := by decide

example : logfile_getname w0 ("pg_log") ("postgresql-") 0
    = "/data/pg_log/postgresql-00042_2004-10-07_123456.log" := by decide

/-! Helper lemmas shared by the claim theorems. -/

theorem string_mk_take_of_le (s : String) (n : Nat) (h : s.length ≤ n) :
    String.mk (s.data.take n) = s := by
  cases s with
  | mk data =>
      simp only [String.length] at h
      simp [List.take_of_length_le h]

theorem strncmpNe_iff (a b : String) (n : Nat) (ha : a.length ≤ n)
    (hb : b.length ≤ n) : strncmpNe a b n = true ↔ a ≠ b := by
  unfold strncmpNe
  cases a with
  | mk da =>
    cases b with
    | mk db =>
        simp only [String.length] at ha hb
        simp [List.take_of_length_le ha, List.take_of_length_le hb,
          String.ext_iff]

theorem strncpyTake_of_le (a : String) (n : Nat) (h : a.length ≤ n) :
    strncpyTake a n = a :=
  string_mk_take_of_le a n h

theorem padZero_length (width n : Nat) (h : (Nat.repr n).length ≤ width) :
    (padZero width n).length = width := by
  simp only [padZero]
  cases hrep : Nat.repr n with
  | mk d =>
      rw [hrep] at h
      have hd : (String.mk d).length = d.length := rfl
      rw [hd] at h
      show (List.replicate (width - d.length) '0' ++ d).length = width
      rw [List.length_append, List.length_replicate]
      omega

theorem processReload_frame (cfg : GucConfig) (s : SysState) :
    (processReload cfg s).1.last_rotation_time = s.last_rotation_time
    ∧ (processReload cfg s).1.pipe_eof_seen = s.pipe_eof_seen
    ∧ (processReload cfg s).1.syslogFile = s.syslogFile := by
  simp only [processReload]
  split
  · split <;> simp
  · simp

theorem processReload_of_not_sighup (cfg : GucConfig) (s : SysState)
    (h : s.got_SIGHUP = false) : processReload cfg s = (s, false) := by
  unfold processReload
  rw [h]
  simp

theorem processReload_not_sighup_after (cfg : GucConfig) (s : SysState) :
    (processReload cfg s).1.got_SIGHUP = false ∨
    (processReload cfg s).1.got_SIGHUP = s.got_SIGHUP := by
  simp only [processReload]
  split
  · split <;> simp
  · simp

theorem checkRotation_state (cfg : GucConfig) (now : Int) (s : SysState) :
    (checkRotation cfg now s).1 = (processReload cfg s).1 := by
  unfold checkRotation
  simp

theorem write_syslogger_file_frame (buffer : List UInt8) (count fwriteRc : Nat)
    (s : SysState) :
    (write_syslogger_file buffer count fwriteRc s).1 =
      { s with syslogFile := { s.syslogFile with
          contents := s.syslogFile.contents
            ++ buffer.take (min fwriteRc count) } } := by
  simp only [write_syslogger_file]
  split <;> rfl

theorem drainOnce_shape (env : IterEnv) (t : SysState) :
    (drainOnce env t).1 = t
    ∨ ((drainOnce env t).1 = { t with pipe_eof_seen := true }
        ∧ (drainOnce env t).2.2 = false)
    ∨ ((drainOnce env t).2.2 = true
        ∧ (drainOnce env t).1 = { t with syslogFile := { t.syslogFile with
            contents := (drainOnce env t).1.syslogFile.contents } }) := by
  unfold drainOnce
  cases env.selectRes with
  | err e => simp
  | timeout => simp
  | readable =>
      cases env.readRes with
      | err e => simp
      | data bytes =>
          by_cases hb : 0 < (bytes.take 1024).length
          · simp only [hb, if_pos, write_syslogger_file_frame]
            right; right
            simp
          · simp only [if_neg (by omega : ¬ 0 < (bytes.take 1024).length)]
            simp [hb]

theorem drainOnce_frame (env : IterEnv) (t : SysState) :
    (drainOnce env t).1.Log_RotationAge = t.Log_RotationAge
    ∧ (drainOnce env t).1.Log_RotationSize = t.Log_RotationSize
    ∧ (drainOnce env t).1.got_SIGHUP = t.got_SIGHUP
    ∧ (drainOnce env t).1.last_rotation_time = t.last_rotation_time
    ∧ (drainOnce env t).1.currentLogDir = t.currentLogDir
    ∧ (drainOnce env t).1.Log_directory = t.Log_directory
    ∧ (drainOnce env t).1.syslogFile.name = t.syslogFile.name := by
  rcases drainOnce_shape env t with h | ⟨h, _⟩ | ⟨_, h⟩ <;> rw [h] <;> simp

theorem logfile_rotate_failure_state (w : World) (renv : RotateEnv)
    (s : SysState) (hopen : renv.openResult = none)
    (h1 : renv.openErrno ≠ Errno.ENFILE)
    (h2 : renv.openErrno ≠ Errno.EMFILE) :
    logfile_rotate w renv s
      = ({ s with Log_RotationAge := 0, Log_RotationSize := 0 },
          [Diag.openFailed
            (logfile_getname w s.Log_directory s.Log_filename_pfx renv.now),
           Diag.rotationDisabled]) := by
  simp only [logfile_rotate]
  rw [hopen]
  simp [h1, h2]

theorem logfile_rotate_fdexhaustion_state (w : World) (renv : RotateEnv)
    (s : SysState) (hopen : renv.openResult = none)
    (he : renv.openErrno = Errno.ENFILE ∨ renv.openErrno = Errno.EMFILE) :
    logfile_rotate w renv s
      = (s, [Diag.openFailed
          (logfile_getname w s.Log_directory s.Log_filename_pfx renv.now)]) := by
  simp only [logfile_rotate]
  rw [hopen]
  rcases he with h | h <;> simp [h]

theorem logfile_rotate_success_state (w : World) (renv : RotateEnv)
    (s : SysState) (contents : List UInt8)
    (hopen : renv.openResult = some contents) :
    logfile_rotate w renv s
      = ({ s with
            syslogFile :=
              ⟨logfile_getname w s.Log_directory s.Log_filename_pfx renv.now,
                contents⟩,
            last_rotation_time := renv.now }, []) := by
  simp only [logfile_rotate]
  rw [hopen]

/-! Claim theorems. -/

/-- C5: if `logfile_rotate` fails to open the new file with errno `ENFILE`
or `EMFILE`, the collector state is unchanged on return — the current file
handle, `Log_RotationAge`, `Log_RotationSize` and `last_rotation_time` all
keep their prior values — so the old file keeps receiving writes and the
same rotation trigger re-evaluates identically on a later iteration. -/
theorem C5_fd_exhaustion_keeps_state (w : World) (renv : RotateEnv)
    (s : SysState) (hopen : renv.openResult = none)
    (he : renv.openErrno = Errno.ENFILE ∨ renv.openErrno = Errno.EMFILE) :
    (logfile_rotate w renv s).1 = s
    ∧ ∀ (cfg : GucConfig) (now : Int),
        checkRotation cfg now (logfile_rotate w renv s).1
          = checkRotation cfg now s := by
  have h1 : (logfile_rotate w renv s).1 = s := by
    rw [logfile_rotate_fdexhaustion_state w renv s hopen he]
  exact ⟨h1, fun cfg now => by rw [h1]⟩

theorem C5_fd_exhaustion_keeps_state_witness :
    (logfile_rotate w0 renvEnfile s0).1 = s0 :=
  (C5_fd_exhaustion_keeps_state w0 renvEnfile s0 rfl (Or.inl rfl)).1

/-- C8: `write_syslogger_file(buffer, count)` reports exactly one failure
diagnostic when fewer than `count` bytes are written and none when all are
written; it appends exactly the bytes the single `fwrite` transferred
(no retry, no buffering of the unwritten tail) and always returns to the
caller. -/
theorem C8_write_short_reports_once (buffer : List UInt8)
    (count fwriteRc : Nat) (s : SysState) (h : fwriteRc ≤ count) :
    ((fwriteRc < count →
        (write_syslogger_file buffer count fwriteRc s).2 = [Diag.writeFailed])
      ∧ (fwriteRc = count →
        (write_syslogger_file buffer count fwriteRc s).2 = [])
      ∧ (write_syslogger_file buffer count fwriteRc s).1.syslogFile.contents
          = s.syslogFile.contents ++ buffer.take fwriteRc) := by
  have hmin : min fwriteRc count = fwriteRc := Nat.min_eq_left h
  refine ⟨fun hlt => ?_, fun heq => ?_, ?_⟩
  · simp only [write_syslogger_file, hmin]
    rw [if_pos (by omega)]
  · simp only [write_syslogger_file, hmin, heq]
    simp
  · rw [write_syslogger_file_frame, hmin]

theorem C8_write_short_reports_once_witness :
    (write_syslogger_file [65, 66, 67] 3 2 s0).2 = [Diag.writeFailed]
    ∧ (write_syslogger_file [65, 66, 67] 3 3 s0).2 = [] :=
  ⟨(C8_write_short_reports_once [65, 66, 67] 3 2 s0 (by decide)).1 (by decide),
   (C8_write_short_reports_once [65, 66, 67] 3 3 s0 (by decide)).2.1 rfl⟩

/-- C9: after a successful rotation, `last_rotation_time` equals the
timestamp sampled at the start of `logfile_rotate` — the same timestamp
`logfile_getname` used to build the new file's name — so the name of the
current file always carries the recorded last rotation time; a failed
rotation leaves `last_rotation_time` untouched. -/
theorem C9_rotation_time_matches_name (w : World) (renv : RotateEnv)
    (s : SysState) :
    (∀ contents, renv.openResult = some contents →
        (logfile_rotate w renv s).1.last_rotation_time = renv.now
        ∧ (logfile_rotate w renv s).1.syslogFile.name
            = logfile_getname w s.Log_directory s.Log_filename_pfx renv.now)
    ∧ (renv.openResult = none →
        (logfile_rotate w renv s).1.last_rotation_time
          = s.last_rotation_time) := by
  constructor
  · intro contents hc
    rw [logfile_rotate_success_state w renv s contents hc]
    exact ⟨rfl, rfl⟩
  · intro hn
    simp only [logfile_rotate, hn]
    split <;> rfl

theorem C9_rotation_time_matches_name_witness :
    (logfile_rotate w0 renvOk s0).1.last_rotation_time = 200
    ∧ (logfile_rotate w0 renvEacces s0).1.last_rotation_time = 100 :=
  ⟨((C9_rotation_time_matches_name w0 renvOk s0).1 [] rfl).1,
   ((C9_rotation_time_matches_name w0 renvEacces s0).2 rfl).trans rfl⟩

/-- C10: `write_syslogger_file` never changes which file is current or any
rotation state: the name of the open file, `last_rotation_time`,
`Log_RotationAge` and `Log_RotationSize` are untouched by every call; within
a main-loop iteration neither the drain step nor the rotation-decision step
replaces the current file — only `logfile_rotate` does. -/
theorem C10_write_frame (buffer : List UInt8) (count fwriteRc : Nat)
    (s : SysState) :
    (write_syslogger_file buffer count fwriteRc s).1.syslogFile.name
        = s.syslogFile.name
    ∧ (write_syslogger_file buffer count fwriteRc s).1.last_rotation_time
        = s.last_rotation_time
    ∧ (write_syslogger_file buffer count fwriteRc s).1.Log_RotationAge
        = s.Log_RotationAge
    ∧ (write_syslogger_file buffer count fwriteRc s).1.Log_RotationSize
        = s.Log_RotationSize
    ∧ (∀ env : IterEnv, (drainOnce env s).1.syslogFile.name
        = s.syslogFile.name)
    ∧ (∀ (cfg : GucConfig) (now : Int),
        (checkRotation cfg now s).1.syslogFile = s.syslogFile) := by
  refine ⟨?_, ?_, ?_, ?_, fun env => (drainOnce_frame env s).2.2.2.2.2.2, ?_⟩
  · rw [write_syslogger_file_frame]
  · rw [write_syslogger_file_frame]
  · rw [write_syslogger_file_frame]
  · rw [write_syslogger_file_frame]
  · intro cfg now
    rw [checkRotation_state]
    exact (processReload_frame cfg s).2.2

/-- C3: `logfile_getname` returns
`"<log_directory>/<prefix><pid5>_<timestamp>.log"` for an absolute
`log_directory` and `"<data_dir>/<log_directory>/<prefix><pid5>_<timestamp>.log"`
otherwise, where the timestamp is the local time of the argument formatted
as `%Y-%m-%d_%H%M%S` and `<pid5>` is the supervisor pid as a zero-padded
5-digit decimal; the result is a pure function of directory, prefix, pid and
(broken-down) timestamp.  The length side conditions discharge the
`snprintf` truncation at `MAXPGPATH`; the pid bound makes `%05u` produce
exactly five digits. -/
theorem C3_logfile_getname_shape (w : World) (logDir pfx : String) (ts : Int)
    (hpid : w.PostmasterPid < 100000) :
    (padZero 5 w.PostmasterPid).length = 5
    ∧ (is_absolute_path logDir = true →
        (logDir ++ "/" ++ pfx ++ padZero 5 w.PostmasterPid ++ "_"
            ++ strftimeStamp (w.localtime ts) ++ ".log").length ≤ MAXPGPATH - 1 →
        logfile_getname w logDir pfx ts
          = logDir ++ "/" ++ pfx ++ padZero 5 w.PostmasterPid ++ "_"
            ++ strftimeStamp (w.localtime ts) ++ ".log")
    ∧ (is_absolute_path logDir = false →
        (w.DataDir ++ "/" ++ logDir ++ "/" ++ pfx ++ padZero 5 w.PostmasterPid
            ++ "_" ++ strftimeStamp (w.localtime ts) ++ ".log").length
          ≤ MAXPGPATH - 1 →
        logfile_getname w logDir pfx ts
          = w.DataDir ++ "/" ++ logDir ++ "/" ++ pfx
            ++ padZero 5 w.PostmasterPid ++ "_"
            ++ strftimeStamp (w.localtime ts) ++ ".log")
    ∧ (∀ ts2 : Int, w.localtime ts = w.localtime ts2 →
        logfile_getname w logDir pfx ts = logfile_getname w logDir pfx ts2) := by
  refine ⟨?_, ?_, ?_, ?_⟩
  · exact padZero_length 5 w.PostmasterPid
      (Nat.repr_length w.PostmasterPid 5 (by norm_num) (by norm_num; omega))
  · intro habs hlen
    simp only [logfile_getname, habs, if_pos, snprintfPath]
    exact string_mk_take_of_le _ _ hlen
  · intro habs hlen
    simp only [logfile_getname, habs, Bool.false_eq_true, if_false, snprintfPath]
    exact string_mk_take_of_le _ _ hlen
  · intro ts2 heq
    simp only [logfile_getname, heq]

theorem C3_logfile_getname_shape_witness :
    logfile_getname w0 ("/var/log") ("pg-") 0
      = "/var/log/pg-00042_2004-10-07_123456.log" := by
  have h := (C3_logfile_getname_shape w0 ("/var/log") ("pg-") 0 (by decide)).2.1
    (by decide) (by decide)
  rw [h]
  decide

/-- C7: an `EINTR` from the readability wait or from the pipe read makes the
iteration behave exactly like a timeout — no diagnostic, no bytes handed to
the file, `pipe_eof_seen` untouched; any other wait/read error reports one
diagnostic and is otherwise also treated as a timeout. -/
theorem C7_drain_errors (env : IterEnv) (s : SysState) :
    (env.selectRes = SelectRes.timeout → drainOnce env s = (s, [], false))
    ∧ (∀ e, env.selectRes = SelectRes.err e → e = Errno.EINTR →
        drainOnce env s = (s, [], false))
    ∧ (∀ e, env.selectRes = SelectRes.err e → e ≠ Errno.EINTR →
        drainOnce env s = (s, [Diag.selectFailed], false))
    ∧ (∀ e, env.selectRes = SelectRes.readable → env.readRes = ReadRes.err e →
        e = Errno.EINTR → drainOnce env s = (s, [], false))
    ∧ (∀ e, env.selectRes = SelectRes.readable → env.readRes = ReadRes.err e →
        e ≠ Errno.EINTR → drainOnce env s = (s, [Diag.readFailed], false)) := by
  refine ⟨fun h => ?_, fun e h he => ?_, fun e h he => ?_,
    fun e h hr he => ?_, fun e h hr he => ?_⟩
  · simp [drainOnce, h]
  · simp [drainOnce, h, he]
  · simp [drainOnce, h, he]
  · simp [drainOnce, h, hr, he]
  · simp [drainOnce, h, hr, he]

def envSelEintr : IterEnv := { env0 with selectRes := SelectRes.err Errno.EINTR }

theorem C7_drain_errors_witness :
    drainOnce envSelEintr s0 = (s0, [], false) :=
  (C7_drain_errors envSelEintr s0).2.1 Errno.EINTR rfl rfl

/-- C6: the SIGHUP handler only sets the `got_SIGHUP` latch; when the main
loop observes it, the reload block clears the latch, installs the reread
configuration, and requests a rotation exactly when the configured log
directory differs from the `currentLogDir` snapshot, in which case it also
re-snapshots the new directory.  The length bounds discharge the `MAXPGPATH`
truncation of the `strncmp`/`strncpy` pair. -/
theorem C6_sighup_reload (cfg : GucConfig) (s : SysState)
    (hg : s.got_SIGHUP = true)
    (h1 : cfg.Log_directory.length ≤ MAXPGPATH)
    (h2 : s.currentLogDir.length ≤ MAXPGPATH) :
    (∀ t : SysState, sigHupHandler t = { t with got_SIGHUP := true })
    ∧ (processReload cfg s).1.got_SIGHUP = false
    ∧ (processReload cfg s).1.Log_RotationAge = cfg.Log_RotationAge
    ∧ (processReload cfg s).1.Log_RotationSize = cfg.Log_RotationSize
    ∧ (processReload cfg s).1.Log_directory = cfg.Log_directory
    ∧ ((processReload cfg s).2 = true ↔ cfg.Log_directory ≠ s.currentLogDir)
    ∧ ((processReload cfg s).2 = true →
        (processReload cfg s).1.currentLogDir = cfg.Log_directory)
    ∧ ((processReload cfg s).2 = false →
        (processReload cfg s).1.currentLogDir = s.currentLogDir) := by
  have hcmp := strncmpNe_iff cfg.Log_directory s.currentLogDir MAXPGPATH h1 h2
  have hcpy := strncpyTake_of_le cfg.Log_directory MAXPGPATH h1
  simp only [processReload, hg, if_true]
  by_cases hne : cfg.Log_directory = s.currentLogDir
  · have hb : strncmpNe cfg.Log_directory s.currentLogDir MAXPGPATH = false :=
      Bool.eq_false_iff.mpr (fun h => (hcmp.mp h) hne)
    rw [hb]
    simp [sigHupHandler, hne]
  · have hb : strncmpNe cfg.Log_directory s.currentLogDir MAXPGPATH = true :=
      hcmp.mpr hne
    simp [sigHupHandler, hb, hne, hcpy]

def sHup : SysState := { s0 with got_SIGHUP := true }

def cfgNewDir : GucConfig := ⟨60, 0, "pg_log2", "postgresql-"⟩

theorem C6_sighup_reload_witness :
    (processReload cfgNewDir sHup).2 = true :=
  ((C6_sighup_reload cfgNewDir sHup rfl (by decide)
    (by decide)).2.2.2.2.2.1).mpr (by decide)

theorem logfile_rotate_eof (w : World) (renv : RotateEnv) (s : SysState) :
    (logfile_rotate w renv s).1.pipe_eof_seen = s.pipe_eof_seen := by
  simp only [logfile_rotate]
  cases renv.openResult with
  | none =>
      by_cases hc : renv.openErrno ≠ Errno.ENFILE ∧ renv.openErrno ≠ Errno.EMFILE
      · rw [if_pos hc]
      · rw [if_neg hc]
  | some c => rfl

theorem rotateIfRequested_eof (w : World) (renv : RotateEnv)
    (p : SysState × Bool) :
    (rotateIfRequested w renv p).1.pipe_eof_seen = p.1.pipe_eof_seen := by
  simp only [rotateIfRequested]
  split
  · exact logfile_rotate_eof w renv p.1
  · rfl

theorem drainOnce_eof_read (env : IterEnv) (t : SysState)
    (h1 : env.selectRes = SelectRes.readable)
    (h2 : env.readRes = ReadRes.data []) :
    drainOnce env t = ({ t with pipe_eof_seen := true }, [], false) := by
  simp [drainOnce, h1, h2]

/-- C4: a zero-length pipe read after a readability indication sets the
`pipe_eof_seen` latch, and that same iteration emits the "logger shutting
down" diagnostic and exits with code 0 — so the latch never survives into a
further iteration (second conjunct: every continuing iteration started with
the latch clear ends with it clear), hence no further reads happen once EOF
is seen. -/
theorem C4_eof_exit (w : World) (env : IterEnv) (s : SysState) :
    (env.selectRes = SelectRes.readable → env.readRes = ReadRes.data [] →
        (sysLoggerIter w env s).1 = IterOut.exit 0
        ∧ Diag.shuttingDown ∈ (sysLoggerIter w env s).2)
    ∧ (s.pipe_eof_seen = false →
        ∀ s1, (sysLoggerIter w env s).1 = IterOut.next s1 →
          s1.pipe_eof_seen = false) := by
  constructor
  · intro h1 h2
    simp only [sysLoggerIter]
    rw [drainOnce_eof_read env _ h1 h2]
    simp
  · intro heof s1 hnext
    generalize ht : (rotateIfRequested w env.rotateEnv
        (checkRotation env.newConfig env.now
          (if env.sigHupArrives then sigHupHandler s else s))).1 = t at *
    have hfront : t.pipe_eof_seen = false := by
      rw [← ht, rotateIfRequested_eof, checkRotation_state,
        (processReload_frame _ _).2.1]
      split <;> exact heof
    simp only [sysLoggerIter, ht] at hnext
    split at hnext
    case isTrue hcont =>
      have hinj : IterOut.next (drainOnce env t).1 = IterOut.next s1 := hnext
      have h1 : (drainOnce env t).1 = s1 := by
        injection hinj
      rw [← h1]
      rcases drainOnce_shape env t with h | ⟨h, hc⟩ | ⟨hc, h⟩
      · rw [h]; exact hfront
      · rw [hc] at hcont; cases hcont
      · rw [h]; exact hfront
    case isFalse hcont =>
      split at hnext
      case isTrue hd =>
        have hbad : IterOut.exit 0 = IterOut.next s1 := hnext
        exact IterOut.noConfusion hbad
      case isFalse hd =>
        have hinj : IterOut.next (drainOnce env t).1 = IterOut.next s1 := hnext
        have h1 : (drainOnce env t).1 = s1 := by
          injection hinj
        rw [← h1]
        simpa using hd

def envEofRead : IterEnv :=
  { env0 with selectRes := SelectRes.readable, readRes := ReadRes.data [] }

theorem C4_eof_exit_witness :
    (sysLoggerIter w0 envEofRead s0).1 = IterOut.exit 0 :=
  ((C4_eof_exit w0 envEofRead s0).1 rfl rfl).1

theorem processReload_req_iff (cfg : GucConfig) (s : SysState)
    (h1 : cfg.Log_directory.length ≤ MAXPGPATH)
    (h2 : s.currentLogDir.length ≤ MAXPGPATH) :
    ((processReload cfg s).2 = true ↔
      (s.got_SIGHUP = true ∧ cfg.Log_directory ≠ s.currentLogDir)) := by
  have hcmp := strncmpNe_iff cfg.Log_directory s.currentLogDir MAXPGPATH h1 h2
  by_cases hg : s.got_SIGHUP = true
  · simp only [processReload, hg, if_true]
    by_cases hne : cfg.Log_directory = s.currentLogDir
    · have hb : strncmpNe cfg.Log_directory s.currentLogDir MAXPGPATH = false :=
        Bool.eq_false_iff.mpr (fun h => (hcmp.mp h) hne)
      rw [hb]
      simp [hne]
    · have hb := hcmp.mpr hne
      rw [hb]
      simp [hne, hg]
  · rw [processReload_of_not_sighup cfg s (by simpa using hg)]
    simp [hg]

theorem reqChain_iff (b : Bool) (P Q : Prop) [Decidable P] [Decidable Q] :
    ((if ((if b = false ∧ P then true else b) = false ∧ Q) then true
      else (if b = false ∧ P then true else b)) = true)
      ↔ (b = true ∨ P ∨ Q) := by
  by_cases hb : b = true <;> by_cases hP : P <;> by_cases hQ : Q <;> simp_all

theorem checkRotation_req_iff (cfg : GucConfig) (now : Int) (s : SysState) :
    ((checkRotation cfg now s).2 = true ↔
      ((processReload cfg s).2 = true
        ∨ ((processReload cfg s).1.last_rotation_time ≠ 0
            ∧ (processReload cfg s).1.Log_RotationAge > 0
            ∧ now - (processReload cfg s).1.last_rotation_time
                ≥ (processReload cfg s).1.Log_RotationAge * 60)
        ∨ ((processReload cfg s).1.Log_RotationSize > 0
            ∧ ftell (processReload cfg s).1.syslogFile
                ≥ (processReload cfg s).1.Log_RotationSize * 1024))) := by
  exact reqChain_iff (processReload cfg s).2
    ((processReload cfg s).1.last_rotation_time ≠ 0
      ∧ (processReload cfg s).1.Log_RotationAge > 0
      ∧ now - (processReload cfg s).1.last_rotation_time
          ≥ (processReload cfg s).1.Log_RotationAge * 60)
    ((processReload cfg s).1.Log_RotationSize > 0
      ∧ ftell (processReload cfg s).1.syslogFile
          ≥ (processReload cfg s).1.Log_RotationSize * 1024)

/-- C2: at the top of every main-loop iteration a rotation is requested
exactly when one of the three conditions holds — (1) a reload observed a
changed log directory, (2) the age threshold is exceeded, (3) the size
threshold is exceeded — where (2) and (3) read the configuration values the
reload block (if any) just installed; and whichever condition fired, the
action taken is the same `logfile_rotate` call.  The
`last_rotation_time ≠ 0` hypothesis is the startup invariant (the loop
initialises it to `time(NULL)`); the length bounds discharge the
`MAXPGPATH`-bounded string compare. -/
theorem C2_rotation_request_conditions (cfg : GucConfig) (now : Int)
    (s : SysState) (hlrt : s.last_rotation_time ≠ 0)
    (h1 : cfg.Log_directory.length ≤ MAXPGPATH)
    (h2 : s.currentLogDir.length ≤ MAXPGPATH) :
    ((checkRotation cfg now s).2 = true ↔
      ((s.got_SIGHUP = true ∧ cfg.Log_directory ≠ s.currentLogDir)
        ∨ ((processReload cfg s).1.Log_RotationAge > 0
            ∧ now - (processReload cfg s).1.last_rotation_time
                ≥ (processReload cfg s).1.Log_RotationAge * 60)
        ∨ ((processReload cfg s).1.Log_RotationSize > 0
            ∧ ftell (processReload cfg s).1.syslogFile
                ≥ (processReload cfg s).1.Log_RotationSize * 1024)))
    ∧ (checkRotation cfg now s).1 = (processReload cfg s).1
    ∧ (∀ (w : World) (renv : RotateEnv) (t : SysState),
        rotateIfRequested w renv (t, true) = logfile_rotate w renv t) := by
  refine ⟨?_, checkRotation_state cfg now s,
    fun w renv t => by simp [rotateIfRequested]⟩
  have hreq := processReload_req_iff cfg s h1 h2
  have hlrt1 : (processReload cfg s).1.last_rotation_time ≠ 0 := by
    rw [(processReload_frame cfg s).1]; exact hlrt
  rw [checkRotation_req_iff cfg now s]
  constructor
  · rintro (h | h | h)
    · exact Or.inl (hreq.mp h)
    · exact Or.inr (Or.inl h.2)
    · exact Or.inr (Or.inr h)
  · rintro (h | h | h)
    · exact Or.inl (hreq.mpr h)
    · exact Or.inr (Or.inl ⟨hlrt1, h⟩)
    · exact Or.inr (Or.inr h)

theorem C2_rotation_request_conditions_witness :
    (checkRotation cfg0 100000 s0).2 = true :=
  ((C2_rotation_request_conditions cfg0 100000 s0 (by decide) (by decide)
    (by decide)).1).mpr (Or.inr (Or.inl (by decide)))

theorem checkRotation_of_disabled (cfg : GucConfig) (now : Int) (s : SysState)
    (hA : s.Log_RotationAge = 0) (hS : s.Log_RotationSize = 0)
    (hg : s.got_SIGHUP = false) :
    checkRotation cfg now s = (s, false) := by
  have hpr : processReload cfg s = (s, false) :=
    processReload_of_not_sighup cfg s hg
  have h1 : (checkRotation cfg now s).1 = s := by
    rw [checkRotation_state, hpr]
  have h2 : (checkRotation cfg now s).2 = false := by
    cases hB : (checkRotation cfg now s).2 with
    | false => rfl
    | true =>
        exfalso
        rcases (checkRotation_req_iff cfg now s).mp hB with h | h | h
        · rw [hpr] at h
          simp at h
        · rw [hpr] at h
          simp at h
          omega
        · rw [hpr] at h
          simp at h
          omega
  exact Prod.ext h1 h2

theorem sysLoggerIter_preserves_disabled (w : World) (e : IterEnv)
    (s t : SysState) (hs : e.sigHupArrives = false)
    (hA : s.Log_RotationAge = 0) (hS : s.Log_RotationSize = 0)
    (hg : s.got_SIGHUP = false)
    (hnext : (sysLoggerIter w e s).1 = IterOut.next t) :
    t.Log_RotationAge = 0 ∧ t.Log_RotationSize = 0 ∧ t.got_SIGHUP = false := by
  have hcheck := checkRotation_of_disabled e.newConfig e.now s hA hS hg
  have hframe := drainOnce_frame e s
  simp only [sysLoggerIter, hs, Bool.false_eq_true, if_false, hcheck,
    rotateIfRequested, if_neg (by simp : ¬ (false = true))] at hnext
  split at hnext
  case isTrue hcont =>
    have hinj : IterOut.next (drainOnce e s).1 = IterOut.next t := hnext
    have h1 : (drainOnce e s).1 = t := by injection hinj
    rw [← h1]
    exact ⟨hframe.1.trans hA, hframe.2.1.trans hS, hframe.2.2.1.trans hg⟩
  case isFalse hcont =>
    split at hnext
    case isTrue hd =>
      have hbad : IterOut.exit 0 = IterOut.next t := hnext
      exact IterOut.noConfusion hbad
    case isFalse hd =>
      have hinj : IterOut.next (drainOnce e s).1 = IterOut.next t := hnext
      have h1 : (drainOnce e s).1 = t := by injection hinj
      rw [← h1]
      exact ⟨hframe.1.trans hA, hframe.2.1.trans hS, hframe.2.2.1.trans hg⟩

theorem sysLoggerRun_preserves_disabled (w : World) (envs : List IterEnv) :
    ∀ s : SysState, (∀ e ∈ envs, e.sigHupArrives = false) →
      s.Log_RotationAge = 0 → s.Log_RotationSize = 0 → s.got_SIGHUP = false →
      ∀ t, sysLoggerRun w envs s = IterOut.next t →
        t.Log_RotationAge = 0 ∧ t.Log_RotationSize = 0
          ∧ t.got_SIGHUP = false := by
  induction envs with
  | nil =>
      intro s _ hA hS hg t h
      simp only [sysLoggerRun] at h
      injection h with h1
      rw [← h1]
      exact ⟨hA, hS, hg⟩
  | cons e es ih =>
      intro s hq hA hS hg t h
      simp only [sysLoggerRun] at h
      cases hmatch : (sysLoggerIter w e s).1 with
      | next s1 =>
          rw [hmatch] at h
          have h3 := sysLoggerIter_preserves_disabled w e s s1
            (hq e (List.mem_cons_self e es)) hA hS hg hmatch
          exact ih s1 (fun x hx => hq x (List.mem_cons_of_mem e hx))
            h3.1 h3.2.1 h3.2.2 t h
      | exit c =>
          rw [hmatch] at h
          exact IterOut.noConfusion h

/-- C1: a `logfile_rotate` open failure with an errno other than
`ENFILE`/`EMFILE` zeroes both `Log_RotationAge` and `Log_RotationSize`
(disabling time- and size-based rotation), reports that rotation is
disabled, leaves the open file and `last_rotation_time` unchanged and
returns; and as long as no further SIGHUP is delivered, every state any
number of main-loop iterations later still has both values zero — only a
reload can re-enable rotation. -/
theorem C1_rotate_failure_disables (w : World) (renv : RotateEnv)
    (s : SysState) (envs : List IterEnv)
    (hopen : renv.openResult = none)
    (h1 : renv.openErrno ≠ Errno.ENFILE)
    (h2 : renv.openErrno ≠ Errno.EMFILE)
    (hg : s.got_SIGHUP = false)
    (hq : ∀ e ∈ envs, e.sigHupArrives = false) :
    (logfile_rotate w renv s).1.Log_RotationAge = 0
    ∧ (logfile_rotate w renv s).1.Log_RotationSize = 0
    ∧ (logfile_rotate w renv s).1.syslogFile = s.syslogFile
    ∧ (logfile_rotate w renv s).1.last_rotation_time = s.last_rotation_time
    ∧ Diag.rotationDisabled ∈ (logfile_rotate w renv s).2
    ∧ (∀ t, sysLoggerRun w envs (logfile_rotate w renv s).1 = IterOut.next t →
        t.Log_RotationAge = 0 ∧ t.Log_RotationSize = 0) := by
  rw [logfile_rotate_failure_state w renv s hopen h1 h2]
  refine ⟨rfl, rfl, rfl, rfl, by simp, ?_⟩
  intro t ht
  have h3 := sysLoggerRun_preserves_disabled w envs
    ({ s with Log_RotationAge := 0, Log_RotationSize := 0 }) hq rfl rfl hg t ht
  exact ⟨h3.1, h3.2.1⟩

theorem C1_rotate_failure_disables_witness :
    (logfile_rotate w0 renvEacces s0).1.Log_RotationAge = 0
    ∧ (logfile_rotate w0 renvEacces s0).1.Log_RotationSize = 0 := by
  have h := C1_rotate_failure_disables w0 renvEacces s0 [env0] rfl
    (by decide) (by decide) rfl
    (by intro e he
        rw [List.mem_singleton] at he
        rw [he]
        decide)
  exact ⟨h.1, h.2.1⟩
